/-
Verification of the GeoQuests submission-verification pipeline.

Shallow embedding of the Python backend (`backend/app`):
  * `app/utils/gps_verification.py`  — haversine distance, GPS policy
  * `app/services/photo_processor.py` — face redaction, EXIF, quality, EXIF cross-check
  * `app/services/gemini_verifier.py` — AI response parsing and normalization
  * `app/api/routes/submissions.py`   — the orchestrator (`create_submission`)

Python floats are modelled as real numbers (`ℝ`) where the code does real
arithmetic (trigonometry), and as rationals (`ℚ`) or integers where only
comparisons and exact arithmetic occur.  External library effects
(PIL decoding, MediaPipe detection, exifread, the Gemini network call) are
passed in as explicit environment values; an exception raised by a library
call is modelled by `none`/a flag, matching the `try/except` structure of
the source.
-/
import Mathlib

namespace GeoQuests

/-! ## `app/utils/gps_verification.py` -/

/-- `math.radians`: degrees to radians. -/
noncomputable def radians (d : ℝ) : ℝ := d * Real.pi / 180

/-- Model of `math.atan2 y x` (two-argument arctangent, result in (−π, π]). -/
noncomputable def atan2 (y x : ℝ) : ℝ :=
  if 0 < x then Real.arctan (y / x)
  else if x < 0 then
    (if 0 ≤ y then Real.arctan (y / x) + Real.pi else Real.arctan (y / x) - Real.pi)
  else
    (if 0 < y then Real.pi / 2 else if y < 0 then -(Real.pi / 2) else 0)

/-- `haversine_distance(lat1, lon1, lat2, lon2)`: great-circle distance in
meters, Earth radius 6 371 000 m (source lines 6–36). -/
noncomputable def haversine_distance (lat1 lon1 lat2 lon2 : ℝ) : ℝ :=
  let R : ℝ := 6371000
  let phi1 := radians lat1
  let phi2 := radians lat2
  let delta_phi := radians (lat2 - lat1)
  let delta_lambda := radians (lon2 - lon1)
  let a := Real.sin (delta_phi / 2) ^ 2 +
    Real.cos phi1 * Real.cos phi2 * Real.sin (delta_lambda / 2) ^ 2
  let c := 2 * atan2 (Real.sqrt a) (Real.sqrt (1 - a))
  R * c

/-- Structured rendering of the `reason` strings built by
`verify_gps_location`; each constructor is one of the source's f-strings,
carrying the interpolated values. -/
inductive GpsReason where
  | accuracyTooLow (accuracy : ℝ)
  | tooFar (distance : ℝ) (radius : ℤ)
  | locationVerified

/-- The dictionary returned by `verify_gps_location`. -/
structure GpsResult where
  verified : Bool
  distance_meters : ℝ
  reason : GpsReason

/-- `verify_gps_location` (source lines 39–89): distance is always computed
first; accuracy (when supplied and ≥ 100) rejects before the radius check. -/
noncomputable def verify_gps_location (explorer_lat explorer_lng : ℝ)
    (explorer_accuracy : Option ℝ)
    (quest_lat quest_lng : ℝ) (quest_radius : ℤ) : GpsResult :=
  let distance := haversine_distance explorer_lat explorer_lng quest_lat quest_lng
  -- `if explorer_accuracy is not None and explorer_accuracy >= 100:`
  match explorer_accuracy with
  | some acc =>
    if acc ≥ 100 then
      ⟨false, distance, .accuracyTooLow acc⟩
    else if distance > (quest_radius : ℝ) then
      ⟨false, distance, .tooFar distance quest_radius⟩
    else
      ⟨true, distance, .locationVerified⟩
  | none =>
    if distance > (quest_radius : ℝ) then
      ⟨false, distance, .tooFar distance quest_radius⟩
    else
      ⟨true, distance, .locationVerified⟩

/-! ### Helper lemmas about the distance -/

theorem radians_zero : radians 0 = 0 := by simp [radians]

theorem haversine_self (lat lon : ℝ) : haversine_distance lat lon lat lon = 0 := by
  unfold haversine_distance
  simp only [sub_self, radians_zero, zero_div, Real.sin_zero, ne_eq,
    OfNat.ofNat_ne_zero, not_false_eq_true, zero_pow, mul_zero, add_zero,
    Real.sqrt_zero, sub_zero, Real.sqrt_one]
  have h1 : atan2 0 1 = 0 := by
    unfold atan2
    simp
  rw [h1]
  ring

theorem haversine_comm (lat1 lon1 lat2 lon2 : ℝ) :
    haversine_distance lat1 lon1 lat2 lon2 = haversine_distance lat2 lon2 lat1 lon1 := by
  have hsin : ∀ x y : ℝ, Real.sin ((x - y) * Real.pi / 180 / 2) ^ 2
      = Real.sin ((y - x) * Real.pi / 180 / 2) ^ 2 := by
    intro x y
    have h : (x - y) * Real.pi / 180 / 2 = -((y - x) * Real.pi / 180 / 2) := by ring
    rw [h, Real.sin_neg]
    ring
  simp only [haversine_distance, radians]
  rw [hsin lat2 lat1, hsin lon2 lon1]
  ring_nf

/-- C9: `haversine_distance` is symmetric in its two coordinate pairs, and the
distance from any coordinate to itself is 0 (with the formula using Earth
radius 6 371 000 m, as in the definition). -/
theorem c9_haversine_symm_self :
    (∀ lat1 lon1 lat2 lon2 : ℝ,
        haversine_distance lat1 lon1 lat2 lon2 = haversine_distance lat2 lon2 lat1 lon1) ∧
    (∀ lat lon : ℝ, haversine_distance lat lon lat lon = 0) :=
  ⟨haversine_comm, haversine_self⟩

/-- C3: `verify_gps_location` always reports the computed haversine distance;
when accuracy is supplied and ≥ 100 it rejects citing low accuracy regardless
of distance; otherwise it rejects citing distance and radius exactly when the
distance exceeds the radius; otherwise it verifies. -/
theorem c3_verify_gps_location_spec (elat elng qlat qlng : ℝ)
    (acc : Option ℝ) (radius : ℤ) :
    (verify_gps_location elat elng acc qlat qlng radius).distance_meters
        = haversine_distance elat elng qlat qlng ∧
    (∀ a : ℝ, acc = some a → a ≥ 100 →
      verify_gps_location elat elng acc qlat qlng radius
        = ⟨false, haversine_distance elat elng qlat qlng, .accuracyTooLow a⟩) ∧
    ((∀ a : ℝ, acc = some a → a < 100) →
      haversine_distance elat elng qlat qlng > (radius : ℝ) →
      verify_gps_location elat elng acc qlat qlng radius
        = ⟨false, haversine_distance elat elng qlat qlng,
            .tooFar (haversine_distance elat elng qlat qlng) radius⟩) ∧
    ((∀ a : ℝ, acc = some a → a < 100) →
      ¬ haversine_distance elat elng qlat qlng > (radius : ℝ) →
      verify_gps_location elat elng acc qlat qlng radius
        = ⟨true, haversine_distance elat elng qlat qlng, .locationVerified⟩) := by
  simp only [verify_gps_location]
  cases acc with
  | none =>
    dsimp only
    refine ⟨by split <;> rfl, ?_, ?_, ?_⟩
    · intro a ha
      cases ha
    · intro _ hd
      rw [if_pos hd]
    · intro _ hd
      rw [if_neg hd]
  | some a =>
    dsimp only
    by_cases h100 : a ≥ 100
    · rw [if_pos h100]
      refine ⟨rfl, fun b hb _ => by cases hb; rfl, ?_, ?_⟩
      · intro hlt _
        exact absurd h100 (not_le.mpr (hlt a rfl))
      · intro hlt _
        exact absurd h100 (not_le.mpr (hlt a rfl))
    · rw [if_neg h100]
      refine ⟨by split <;> rfl, ?_, ?_, ?_⟩
      · intro b hb hge
        cases hb
        exact absurd hge h100
      · intro _ hd
        rw [if_pos hd]
      · intro _ hd
        rw [if_neg hd]

/-- Witness for C3 at a concrete input: accuracy 150 rejects even at distance
0; accuracy 10 at distance 0 within radius 50 verifies. -/
theorem c3_verify_gps_location_spec_witness :
    verify_gps_location 0 0 (some 150) 0 0 50
      = ⟨false, haversine_distance 0 0 0 0, .accuracyTooLow 150⟩ ∧
    verify_gps_location 0 0 (some 10) 0 0 50
      = ⟨true, haversine_distance 0 0 0 0, .locationVerified⟩ := by
  constructor
  · exact (c3_verify_gps_location_spec 0 0 0 0 (some 150) 50).2.1 150 rfl (by norm_num)
  · refine (c3_verify_gps_location_spec 0 0 0 0 (some 10) 50).2.2.2 ?_ ?_
    · intro a ha
      cases ha
      norm_num
    · rw [haversine_self]
      norm_num

/-! ## `app/services/photo_processor.py` — `extract_exif_metadata`

`exifread.process_file` is modelled by an environment value
`Option (List (String × ExifTag))`: `none` when the library raises on corrupt
data, otherwise the tag dictionary (an empty list is the falsy `{}`). -/

/-- An element of an exifread tag's `.values`: a rational (GPS coordinates)
or a character (indexing into an ASCII tag's string value). -/
inductive PyVal where
  | rat (q : ℚ)
  | char (c : Char)
  deriving DecidableEq

/-- An exifread tag: `.values` is a list of rationals for GPS tags and the
string itself for ASCII tags. -/
inductive ExifTag where
  | rationals (vals : List ℚ)
  | ascii (s : String)
  deriving DecidableEq

/-- `tag.values[i]`; `none` models the `IndexError` on a short list. -/
def ExifTag.valuesAt : ExifTag → Nat → Option PyVal
  | .rationals vals, i => (vals.get? i).map .rat
  | .ascii s, i => (s.toList.get? i).map .char

/-- `float(v)` on an element of `.values`; a non-numeric character raises
(`none`). -/
def pyFloatVal : PyVal → Option ℚ
  | .rat q => some q
  | .char c => if c.isDigit then some ((c.toNat - 48 : ℕ) : ℚ) else none

/-- `tags[k]` / `k in tags` on the tag dictionary. -/
def tagsFind (tags : List (String × ExifTag)) (k : String) : Option ExifTag :=
  (tags.find? (fun p => p.1 = k)).map (·.2)

/-- The degrees/minutes/seconds sum
`float(t.values[0]) + float(t.values[1])/60 + float(t.values[2])/3600`;
`none` models an exception (short or non-numeric `.values`). -/
def dmsToDecimal (t : ExifTag) : Option ℚ := do
  let v0 ← t.valuesAt 0 >>= pyFloatVal
  let v1 ← t.valuesAt 1 >>= pyFloatVal
  let v2 ← t.valuesAt 2 >>= pyFloatVal
  pure (v0 + v1 / 60 + v2 / 3600)

/-- The result dictionary of `extract_exif_metadata` (fields in the source's
initialisation order). -/
structure ExifMetadata where
  has_gps : Bool
  gps_lat : Option ℚ
  gps_lng : Option ℚ
  timestamp : Option String
  camera_model : Option String
  has_exif : Bool
  deriving DecidableEq

/-- The initial `result` dictionary of `extract_exif_metadata`. -/
def exifDefault : ExifMetadata :=
  { has_gps := false, gps_lat := none, gps_lng := none,
    timestamp := none, camera_model := none, has_exif := false }

/-- `str(tag)` on an exifread tag. -/
def exifTagStr : ExifTag → String
  | .ascii s => s
  | .rationals vals => String.intercalate ", " (vals.map toString)

/-- The GPS block of `extract_exif_metadata` (source lines 126–143): `none`
models an exception inside the block (then the outer `except` returns the
result mutated so far).  When the GPS latitude/longitude tags are absent the
block is skipped without touching the result.  Note that when a hemisphere
reference tag is absent, the source falls back to the plain string `'N'` /
`'E'`, whose `.values` attribute access raises — modelled by `none`. -/
def exifGpsStep (tags : List (String × ExifTag)) (r : ExifMetadata) :
    Option ExifMetadata :=
  match tagsFind tags "GPS GPSLatitude", tagsFind tags "GPS GPSLongitude" with
  | some lat, some lon => do
    let latAbs ← dmsToDecimal lat
    let latRef0 ← (tagsFind tags "GPS GPSLatitudeRef").bind (·.valuesAt 0)
    let lat_decimal := if latRef0 = PyVal.char 'S' then -latAbs else latAbs
    let lonAbs ← dmsToDecimal lon
    let lonRef0 ← (tagsFind tags "GPS GPSLongitudeRef").bind (·.valuesAt 0)
    let lon_decimal := if lonRef0 = PyVal.char 'W' then -lonAbs else lonAbs
    pure { r with has_gps := true,
                  gps_lat := some lat_decimal, gps_lng := some lon_decimal }
  | _, _ => some r

/-- Model of `datetime.strptime(s, "%Y:%m:%d %H:%M:%S")`: shape and range
check; on success the validated source string stands for the datetime. -/
def parseExifDateTime (s : String) : Option String :=
  match s.toList with
  | [y1, y2, y3, y4, c1, mo1, mo2, c2, d1, d2, sp, h1, h2, c3, mi1, mi2, c4, s1, s2] =>
    let two := fun (a b : Char) => (a.toNat - 48) * 10 + (b.toNat - 48)
    if ([y1, y2, y3, y4, mo1, mo2, d1, d2, h1, h2, mi1, mi2, s1, s2].all Char.isDigit
        ∧ c1 = ':' ∧ c2 = ':' ∧ sp = ' ' ∧ c3 = ':' ∧ c4 = ':'
        ∧ 1 ≤ two mo1 mo2 ∧ two mo1 mo2 ≤ 12 ∧ 1 ≤ two d1 d2 ∧ two d1 d2 ≤ 31
        ∧ two h1 h2 ≤ 23 ∧ two mi1 mi2 ≤ 59 ∧ two s1 s2 ≤ 59 : Bool)
    then some s else none
  | _ => none

/-- The timestamp block (source lines 146–151); its inner `try/except: pass`
leaves the result unchanged on a parse failure. -/
def exifTimestampStep (tags : List (String × ExifTag)) (r : ExifMetadata) :
    ExifMetadata :=
  match tagsFind tags "EXIF DateTimeOriginal" with
  | some t =>
    match parseExifDateTime (exifTagStr t) with
    | some s => { r with timestamp := some s }
    | none => r
  | none => r

/-- The camera-model block (source lines 154–157). -/
def exifCameraStep (tags : List (String × ExifTag)) (r : ExifMetadata) :
    ExifMetadata :=
  match tagsFind tags "Image Model" with
  | some t => { r with camera_model := some (exifTagStr t) }
  | none =>
    match tagsFind tags "EXIF LensModel" with
    | some t => { r with camera_model := some (exifTagStr t) }
    | none => r

/-- `extract_exif_metadata` (source lines 89–163).  The function is total:
every library failure path returns a result dictionary. -/
def extract_exif_metadata (tags? : Option (List (String × ExifTag))) :
    ExifMetadata :=
  match tags? with
  | none => exifDefault
  | some tags =>
    if tags.isEmpty then exifDefault
    else
      let r0 := { exifDefault with has_exif := true }
      match exifGpsStep tags r0 with
      | none => r0
      | some r1 => exifCameraStep tags (exifTimestampStep tags r1)

/-- C7: `extract_exif_metadata` is total (it is a Lean function — every
branch, including every modelled exception, produces a result), and when the
metadata is missing or corrupt (the exifread parse raises, or yields no
tags) the result has `has_exif = false` and `has_gps = false`. -/
theorem c7_exif_fail_open (tags? : Option (List (String × ExifTag))) :
    (tags? = none ∨ tags? = some [] →
      (extract_exif_metadata tags?).has_exif = false ∧
      (extract_exif_metadata tags?).has_gps = false) := by
  rintro (rfl | rfl) <;> exact ⟨rfl, rfl⟩

/-- Witness for C7: the raising-parse input and the no-tags input. -/
theorem c7_exif_fail_open_witness :
    (extract_exif_metadata none).has_exif = false ∧
    (extract_exif_metadata none).has_gps = false ∧
    (extract_exif_metadata (some [])).has_exif = false ∧
    (extract_exif_metadata (some [])).has_gps = false := by
  refine ⟨(c7_exif_fail_open none (Or.inl rfl)).1,
          (c7_exif_fail_open none (Or.inl rfl)).2,
          (c7_exif_fail_open (some []) (Or.inr rfl)).1,
          (c7_exif_fail_open (some []) (Or.inr rfl)).2⟩

/-! ## `app/services/photo_processor.py` — `validate_exif_location` -/

/-- Structured rendering of the `reason` strings of `validate_exif_location`,
carrying the interpolated distance for the f-string case. -/
inductive ExifReason where
  | noGpsWarning
  | mismatch (distance : ℝ)
  | matched

/-- The dictionary returned by `validate_exif_location`. -/
structure ExifValidation where
  matches' : Bool
  distance_meters : Option ℝ
  reason : ExifReason

/-- `validate_exif_location` (source lines 247–298).  When `has_gps` is true
the extractor invariably filled `gps_lat`/`gps_lng`; the dictionary accesses
are rendered with `Option.getD 0`. -/
noncomputable def validate_exif_location (exif_data : ExifMetadata)
    (submitted_lat submitted_lng : ℝ) (tolerance_meters : ℝ := 50) :
    ExifValidation :=
  if exif_data.has_gps = false then
    ⟨true, none, .noGpsWarning⟩
  else
    let distance := haversine_distance ((exif_data.gps_lat.getD 0 : ℚ) : ℝ)
      ((exif_data.gps_lng.getD 0 : ℚ) : ℝ) submitted_lat submitted_lng
    if distance > tolerance_meters then
      ⟨false, some distance, .mismatch distance⟩
    else
      ⟨true, some distance, .matched⟩

/-- C8: without embedded GPS the validator returns `matches = true` with the
warning-only reason and no distance; with embedded GPS it reports the
haversine distance between the embedded and claimed coordinates, and returns
`matches = false` with a reason citing that distance exactly when the
distance exceeds the tolerance, `matches = true` otherwise. -/
theorem c8_validate_exif_spec (exif : ExifMetadata) (slat slng tol : ℝ) :
    (exif.has_gps = false →
      validate_exif_location exif slat slng tol = ⟨true, none, .noGpsWarning⟩) ∧
    (exif.has_gps = true →
      (validate_exif_location exif slat slng tol).distance_meters
        = some (haversine_distance ((exif.gps_lat.getD 0 : ℚ) : ℝ)
            ((exif.gps_lng.getD 0 : ℚ) : ℝ) slat slng) ∧
      ((validate_exif_location exif slat slng tol).matches' = false ↔
        haversine_distance ((exif.gps_lat.getD 0 : ℚ) : ℝ)
            ((exif.gps_lng.getD 0 : ℚ) : ℝ) slat slng > tol) ∧
      (haversine_distance ((exif.gps_lat.getD 0 : ℚ) : ℝ)
            ((exif.gps_lng.getD 0 : ℚ) : ℝ) slat slng > tol →
        (validate_exif_location exif slat slng tol).reason
          = .mismatch (haversine_distance ((exif.gps_lat.getD 0 : ℚ) : ℝ)
              ((exif.gps_lng.getD 0 : ℚ) : ℝ) slat slng)) ∧
      (¬ haversine_distance ((exif.gps_lat.getD 0 : ℚ) : ℝ)
            ((exif.gps_lng.getD 0 : ℚ) : ℝ) slat slng > tol →
        (validate_exif_location exif slat slng tol).matches' = true ∧
        (validate_exif_location exif slat slng tol).reason = .matched)) := by
  simp only [validate_exif_location]
  constructor
  · intro h
    rw [if_pos h]
  · intro h
    rw [h]
    simp only [Bool.true_eq_false, if_false]
    by_cases hd : haversine_distance ((exif.gps_lat.getD 0 : ℚ) : ℝ)
        ((exif.gps_lng.getD 0 : ℚ) : ℝ) slat slng > tol
    · rw [if_pos hd]
      refine ⟨rfl, by simp [hd], fun _ => rfl, fun hc => absurd hd hc⟩
    · rw [if_neg hd]
      refine ⟨rfl, by simp [hd], fun hc => absurd hc hd, fun _ => ⟨rfl, rfl⟩⟩

/-- Witness for C8: an extractor output without GPS takes the warning-only
branch; one with GPS at the claimed point itself has distance 0 ≤ 50 and
matches. -/
theorem c8_validate_exif_spec_witness :
    validate_exif_location exifDefault 1 2 50 = ⟨true, none, .noGpsWarning⟩ ∧
    (validate_exif_location
        { exifDefault with has_gps := true, gps_lat := some 0, gps_lng := some 0 }
        0 0 50).matches' = true := by
  constructor
  · exact (c8_validate_exif_spec exifDefault 1 2 50).1 rfl
  · refine ((c8_validate_exif_spec
      { exifDefault with has_gps := true, gps_lat := some 0, gps_lng := some 0 }
      0 0 50).2 rfl).2.2.2 ?_ |>.1
    simp only [Option.getD_some, Rat.cast_zero]
    rw [haversine_self]
    norm_num

/-! ## `app/services/photo_processor.py` — `check_image_quality`

PIL decoding and statistics are modelled by an environment value: `none` when
`Image.open` raises (total decode failure), otherwise the grayscale image's
dimensions, the variance of the edge-filtered image
(`ImageStat.Stat(edges).var`, `none` for an empty statistics list) and the
mean brightness (`ImageStat.Stat(img).mean`). -/

/-- What PIL yields for a decodable image, converted to grayscale. -/
structure DecodedGrayImage where
  width : Nat
  height : Nat
  edgeVar : Option ℚ
  meanBrightness : Option ℚ
  deriving DecidableEq

/-- The result dictionary of `check_image_quality` (fields in the source's
initialisation order). -/
structure QualityResult where
  score : ℤ
  is_blurry : Bool
  is_too_dark : Bool
  is_too_small : Bool
  width : Nat
  height : Nat
  blur_score : ℚ
  deriving DecidableEq

/-- The initial `result` dictionary of `check_image_quality`. -/
def qualityDefault : QualityResult :=
  { score := 100, is_blurry := false, is_too_dark := false,
    is_too_small := false, width := 0, height := 0, blur_score := 0 }

/-- `check_image_quality` (source lines 166–244): deductions 30 (too small,
under 640×480), 40 (blurry, edge variance < 500), 20 (too dark, mean
brightness < 50), then clamp to [0, 100]; decode failure sets score 0. -/
def check_image_quality (img? : Option DecodedGrayImage) : QualityResult :=
  match img? with
  | none => { qualityDefault with score := 0 }
  | some img =>
    let r := { qualityDefault with width := img.width, height := img.height }
    let r := if img.width < 640 ∨ img.height < 480 then
        { r with is_too_small := true, score := r.score - 30 } else r
    let edge_variance := img.edgeVar.getD 0
    let r := { r with blur_score := edge_variance }
    let r := if edge_variance < 500 then
        { r with is_blurry := true, score := r.score - 40 } else r
    let avg_brightness := img.meanBrightness.getD 0
    let r := if avg_brightness < 50 then
        { r with is_too_dark := true, score := r.score - 20 } else r
    { r with score := max 0 (min 100 r.score) }

/-- C2 counterexample: for a 320×240 image with edge variance 100 and mean
brightness 30 the score is 10 (= 100 − 30 − 40 − 20), not 0 as the claim
states. -/
theorem c2_quality_score_counterexample :
    (check_image_quality (some ⟨320, 240, some 100, some 30⟩)).score ≠ 0 ∧
    (check_image_quality (some ⟨320, 240, some 100, some 30⟩)).score = 10 := by
  decide

/-- C2 (amended): the 320×240 / variance-100 / brightness-30 image scores
10 with all three flags set; in general, for every decodable image the
score is 100 minus the applicable deductions (30 too small, 40 blurry,
20 too dark) clamped into [0, 100], and is never negative. -/
theorem c2_quality_score_spec (img : DecodedGrayImage) :
    ((check_image_quality (some ⟨320, 240, some 100, some 30⟩)).score = 10 ∧
     (check_image_quality (some ⟨320, 240, some 100, some 30⟩)).is_too_small = true ∧
     (check_image_quality (some ⟨320, 240, some 100, some 30⟩)).is_blurry = true ∧
     (check_image_quality (some ⟨320, 240, some 100, some 30⟩)).is_too_dark = true) ∧
    (check_image_quality (some img)).score
      = max 0 (min 100 (100 - (if img.width < 640 ∨ img.height < 480 then 30 else 0)
          - (if img.edgeVar.getD 0 < 500 then 40 else 0)
          - (if img.meanBrightness.getD 0 < 50 then 20 else 0))) ∧
    0 ≤ (check_image_quality (some img)).score ∧
    (check_image_quality (some img)).score ≤ 100 := by
  refine ⟨by decide, ?_, ?_, ?_⟩ <;>
    simp only [check_image_quality, qualityDefault] <;>
    split_ifs <;> simp

/-! ## `app/services/photo_processor.py` — `detect_and_blur_faces`

PIL decoding, MediaPipe detection and the JPEG re-encode are modelled by an
environment value: `none` when any library call raises (the single
`try/except` around the whole body), otherwise the decoded image's size, the
relative bounding boxes returned by the face detector, and the re-encoded
output bytes.  Blurring mutates pixels only, so the counts do not depend on
it. -/

/-- `detection.location_data.relative_bounding_box`. -/
structure RelBBox where
  xmin : ℚ
  ymin : ℚ
  width : ℚ
  height : ℚ
  deriving DecidableEq

/-- Environment for one `detect_and_blur_faces` run. -/
structure DecodedFaceImage where
  size : Nat × Nat
  detections : List RelBBox
  encoded : List Nat
  deriving DecidableEq

/-- Python `int()` on a rational: truncation toward zero (`Int.tdiv`, since
`/` on `ℤ` rounds toward negative infinity). -/
def intTrunc (q : ℚ) : ℤ := q.num.tdiv q.den

/-- One iteration of the detection loop of `detect_and_blur_faces` (source
lines 48–75), acting on the `(faces_detected, faces_blurred)` counters.
`w`/`h` are the loop's variables from `h, w = img.size` (note the source
swaps the names: `h` receives the PIL width and `w` the height). -/
def faceLoopStep (w h : ℤ) (counts : Nat × Nat) (bbox : RelBBox) : Nat × Nat :=
  let faces_detected := counts.1 + 1
  let x := intTrunc (bbox.xmin * (w : ℚ))
  let y := intTrunc (bbox.ymin * (h : ℚ))
  let width := intTrunc (bbox.width * (w : ℚ))
  let height := intTrunc (bbox.height * (h : ℚ))
  let padding : ℤ := 20
  let x := max 0 (x - padding)
  let y := max 0 (y - padding)
  let width := min (w - x) (width + 2 * padding)
  let height := min (h - y) (height + 2 * padding)
  -- `face_roi = img.crop((x, y, x + width, y + height))` has size
  -- `(max 0 width, max 0 height)`; blur and count only when both positive.
  if max 0 width > 0 ∧ max 0 height > 0 then
    (faces_detected, counts.2 + 1)
  else
    (faces_detected, counts.2)

/-- `detect_and_blur_faces` (source lines 19–86): any exception returns the
original bytes with both counters zero. -/
def detect_and_blur_faces (image_bytes : List Nat) (env : Option DecodedFaceImage) :
    List Nat × Nat × Nat :=
  match env with
  | none => (image_bytes, 0, 0)
  | some d =>
    -- `h, w = img.size`
    let h : ℤ := d.size.1
    let w : ℤ := d.size.2
    let counts :=
      if d.detections.isEmpty then (0, 0)
      else d.detections.foldl (faceLoopStep w h) (0, 0)
    (d.encoded, counts.1, counts.2)

theorem faceLoop_blurred_le_detected (w h : ℤ) (l : List RelBBox) :
    ∀ acc : Nat × Nat, acc.2 ≤ acc.1 →
      (l.foldl (faceLoopStep w h) acc).2 ≤ (l.foldl (faceLoopStep w h) acc).1 := by
  induction l with
  | nil => intro acc hle; exact hle
  | cons b t ih =>
    intro acc hle
    simp only [List.foldl_cons]
    apply ih
    simp only [faceLoopStep]
    split <;> simp <;> omega

/-- C6: `detect_and_blur_faces` is total; when any processing step raises it
returns the original bytes with both counters zero, and in every case
`faces_blurred ≤ faces_detected`. -/
theorem c6_faces_fail_open (image_bytes : List Nat) (env : Option DecodedFaceImage) :
    (detect_and_blur_faces image_bytes env).2.2
      ≤ (detect_and_blur_faces image_bytes env).2.1 ∧
    (env = none → detect_and_blur_faces image_bytes env = (image_bytes, 0, 0)) := by
  constructor
  · cases env with
    | none => exact Nat.le_refl 0
    | some d =>
      simp only [detect_and_blur_faces]
      split
      · exact Nat.le_refl 0
      · exact faceLoop_blurred_le_detected _ _ d.detections (0, 0) (Nat.le_refl 0)
  · rintro rfl
    rfl

/-- Witness for C6: the exception path at a concrete input. -/
theorem c6_faces_fail_open_witness :
    detect_and_blur_faces [7, 7, 7] none = ([7, 7, 7], 0, 0) :=
  (c6_faces_fail_open [7, 7, 7] none).2 rfl

/-! ## `app/services/gemini_verifier.py`

JSON values as produced by `json.loads`; numbers are restricted to integers
(the schema declares `content_match_score` as an integer, and no analysed
response carries a fractional number). -/

/-- A parsed JSON value. -/
inductive Json where
  | null
  | bool (b : Bool)
  | num (n : ℤ)
  | str (s : String)
  | arr (elems : List Json)
  | obj (fields : List (String × Json))

/-- Python whitespace for `str.strip`. -/
def isPyWs (c : Char) : Bool :=
  c = ' ' ∨ c = '\t' ∨ c = '\n' ∨ c = '\r' ∨ c = '\x0b' ∨ c = '\x0c'

/-- Model of Python `str.strip()`. -/
def pyStrip (s : String) : String :=
  String.mk (((s.toList.dropWhile isPyWs).reverse.dropWhile isPyWs).reverse)

/-- Model of `str.upper()` on one character (ASCII). -/
def pyUpperChar (c : Char) : Char :=
  if 'a' ≤ c ∧ c ≤ 'z' then Char.ofNat (c.toNat - 32) else c

/-- Model of Python `str.upper()`. -/
def pyUpper (s : String) : String :=
  String.mk (s.toList.map pyUpperChar)

/-- Python truthiness of a JSON value. -/
def pyTruthy : Json → Bool
  | .null => false
  | .bool b => b
  | .num n => decide (n ≠ 0)
  | .str s => decide (s ≠ "")
  | .arr l => !l.isEmpty
  | .obj l => !l.isEmpty

mutual
/-- Model of Python `repr` on a JSON value. -/
def pyRepr : Json → String
  | .null => "None"
  | .bool b => if b then "True" else "False"
  | .num n => toString n
  | .str s => "\x27" ++ s ++ "\x27"
  | .arr l => "[" ++ String.intercalate ", " (pyReprList l) ++ "]"
  | .obj l => "\x7b" ++ String.intercalate ", " (pyReprFields l) ++ "\x7d"

def pyReprList : List Json → List String
  | [] => []
  | j :: t => pyRepr j :: pyReprList t

def pyReprFields : List (String × Json) → List String
  | [] => []
  | (k, v) :: t => ("\x27" ++ k ++ "\x27: " ++ pyRepr v) :: pyReprFields t
end

/-- Model of Python `str(v)` on a JSON value (equals `repr` except on
strings). -/
def pyStr : Json → String
  | .str s => s
  | j => pyRepr j

/-- Model of Python `int(v)` on a JSON value; `none` models the raised
`TypeError`/`ValueError` (propagating to the enclosing `except`). -/
def pyInt : Json → Option ℤ
  | .num n => some n
  | .bool b => some (if b then 1 else 0)
  | .str s => (pyStrip s).toInt?
  | _ => none

/-- `data.get(k)` on a parsed JSON object (last duplicate key wins, as in a
Python dict built by `json.loads`). -/
def jget (fields : List (String × Json)) (k : String) : Option Json :=
  fields.foldl (fun acc p => if p.1 = k then some p.2 else acc) none

/-! ### Model of `json.loads`

A fuel-indexed recursive-descent parser; any fuel of at least the input
length behaves like the untruncated parser on that input.  Escapes are the
common ones; numbers are integers only (see note on `Json`): both are strict
under-approximations that can only turn a `json.loads` success into `none`,
never invent one, and no analysed input touches them. -/

/-- Skip JSON whitespace. -/
def skipWs : List Char → List Char
  | c :: cs => if c = ' ' ∨ c = '\t' ∨ c = '\n' ∨ c = '\r' then skipWs cs else c :: cs
  | [] => []

/-- Parse the remainder of a JSON string after the opening quote. -/
def parseStringChars : List Char → Option (List Char × List Char)
  | [] => none
  | '"' :: cs => some ([], cs)
  | '\\' :: e :: cs =>
    let esc : Option Char :=
      if e = '"' then some '"'
      else if e = '\\' then some '\\'
      else if e = '/' then some '/'
      else if e = 'n' then some '\n'
      else if e = 't' then some '\t'
      else if e = 'r' then some '\r'
      else if e = 'b' then some (Char.ofNat 8)
      else if e = 'f' then some (Char.ofNat 12)
      else none
    match esc with
    | some c => (parseStringChars cs).map (fun p => (c :: p.1, p.2))
    | none => none
  | c :: cs => (parseStringChars cs).map (fun p => (c :: p.1, p.2))

/-- Parse a JSON integer (optional minus, digits; fractions and exponents
are outside the model). -/
def parseNumber (cs : List Char) : Option (ℤ × List Char) :=
  let p := match cs with
    | '-' :: t => (true, t)
    | _ => (false, cs)
  let ds := p.2.takeWhile Char.isDigit
  let rest := p.2.dropWhile Char.isDigit
  if ds.isEmpty then none
  else
    match rest with
    | '.' :: _ => none
    | 'e' :: _ => none
    | 'E' :: _ => none
    | _ =>
      let n : ℕ := ds.foldl (fun a c => a * 10 + (c.toNat - 48)) 0
      some (if p.1 then -(n : ℤ) else (n : ℤ), rest)

/-- Match a literal keyword. -/
def dropLit : List Char → List Char → Option (List Char)
  | [], cs => some cs
  | p :: ps, c :: cs => if c = p then dropLit ps cs else none
  | _ :: _, [] => none

mutual
/-- Parse one JSON value. -/
def parseJsonVal : Nat → List Char → Option (Json × List Char)
  | 0, _ => none
  | fuel + 1, cs =>
    match skipWs cs with
    | [] => none
    | c :: cs' =>
      if c = '"' then
        (parseStringChars cs').map (fun p => (Json.str (String.mk p.1), p.2))
      else if c = 't' then
        (dropLit [ 'r', 'u', 'e'] cs').map (fun rest => (Json.bool true, rest))
      else if c = 'f' then
        (dropLit [ 'a', 'l', 's', 'e'] cs').map (fun rest => (Json.bool false, rest))
      else if c = 'n' then
        (dropLit [ 'u', 'l', 'l'] cs').map (fun rest => (Json.null, rest))
      else if c = '[' then
        (parseJsonArrRest fuel cs').map (fun p => (Json.arr p.1, p.2))
      else if c = '\x7b' then
        (parseJsonObjRest fuel cs').map (fun p => (Json.obj p.1, p.2))
      else
        (parseNumber (c :: cs')).map (fun p => (Json.num p.1, p.2))

/-- Parse the elements of an array after `[` (empty array or comma-separated
values up to `]`). -/
def parseJsonArrRest : Nat → List Char → Option (List Json × List Char)
  | 0, _ => none
  | fuel + 1, cs =>
    match skipWs cs with
    | ']' :: rest => some ([], rest)
    | cs' =>
      match parseJsonVal fuel cs' with
      | none => none
      | some (v, rest) =>
        match skipWs rest with
        | ',' :: rest2 =>
          match parseJsonMoreElems fuel rest2 with
          | some (vs, rest3) => some (v :: vs, rest3)
          | none => none
        | ']' :: rest2 => some ([v], rest2)
        | _ => none

/-- Parse one-or-more array elements after a comma. -/
def parseJsonMoreElems : Nat → List Char → Option (List Json × List Char)
  | 0, _ => none
  | fuel + 1, cs =>
    match parseJsonVal fuel cs with
    | none => none
    | some (v, rest) =>
      match skipWs rest with
      | ',' :: rest2 =>
        match parseJsonMoreElems fuel rest2 with
        | some (vs, rest3) => some (v :: vs, rest3)
        | none => none
      | ']' :: rest2 => some ([v], rest2)
      | _ => none

/-- Parse the fields of an object after the opening brace. -/
def parseJsonObjRest : Nat → List Char → Option (List (String × Json) × List Char)
  | 0, _ => none
  | fuel + 1, cs =>
    match skipWs cs with
    | '\x7d' :: rest => some ([], rest)
    | cs' =>
      match parseJsonPair fuel cs' with
      | none => none
      | some (kv, rest) =>
        match skipWs rest with
        | ',' :: rest2 =>
          match parseJsonMorePairs fuel rest2 with
          | some (kvs, rest3) => some (kv :: kvs, rest3)
          | none => none
        | '\x7d' :: rest2 => some ([kv], rest2)
        | _ => none

/-- Parse one-or-more object fields after a comma. -/
def parseJsonMorePairs : Nat → List Char → Option (List (String × Json) × List Char)
  | 0, _ => none
  | fuel + 1, cs =>
    match parseJsonPair fuel cs with
    | none => none
    | some (kv, rest) =>
      match skipWs rest with
      | ',' :: rest2 =>
        match parseJsonMorePairs fuel rest2 with
        | some (kvs, rest3) => some (kv :: kvs, rest3)
        | none => none
      | '\x7d' :: rest2 => some ([kv], rest2)
      | _ => none

/-- Parse one `"key": value` pair. -/
def parseJsonPair : Nat → List Char → Option ((String × Json) × List Char)
  | 0, _ => none
  | fuel + 1, cs =>
    match skipWs cs with
    | '"' :: cs' =>
      match parseStringChars cs' with
      | none => none
      | some (k, rest) =>
        match skipWs rest with
        | ':' :: rest2 =>
          match parseJsonVal fuel rest2 with
          | none => none
          | some (v, rest3) => some ((String.mk k, v), rest3)
        | _ => none
    | _ => none
end

/-- Model of `json.loads`: parse one value, allow trailing whitespace only. -/
def jsonLoads (s : String) : Option Json :=
  match parseJsonVal (s.length + 1) s.toList with
  | some (v, rest) => if (skipWs rest).isEmpty then some v else none
  | none => none

/-- First index `≥ start` at which `pat` occurs in `hay`
(Python `str.find(pat, start)`, with `none` for −1). -/
def subIdxFrom (hay pat : List Char) (start : Nat) : Option Nat :=
  (List.range (hay.length + 1)).find?
    (fun i => decide (start ≤ i) && pat.isPrefixOf (hay.drop i))

/-- Python `s.find(sub)` (with `none` for −1). -/
def pyFind (s sub : String) : Option Nat :=
  subIdxFrom s.toList sub.toList 0

/-- Python slice `s[a:b]`. -/
def pySlice (s : String) (a b : Nat) : String :=
  String.mk ((s.toList.take b).drop a)

/-- `_repair_truncated_json` (source lines 86–94): append the missing `]`/`}`
counted from unbalanced braces/brackets; `none` when there is nothing to
close (or the text is blank). -/
def repair_truncated_json (text : String) : Option String :=
  if text.isEmpty ∨ (pyStrip text).isEmpty then none
  else
    let open_braces : ℤ := countBraceOpen text
    let open_brackets : ℤ := countBracketOpen text
    if open_braces ≤ 0 ∧ open_brackets ≤ 0 then none
    else some (text ++ String.mk (List.replicate open_brackets.toNat ']')
                    ++ String.mk (List.replicate open_braces.toNat '\x7d'))
where
  countOf (s : String) (c : Char) : ℤ :=
    ((s.toList.filter (fun x => x = c)).length : ℤ)
  countBraceOpen (s : String) : ℤ := countOf s '\x7b' - countOf s '\x7d'
  countBracketOpen (s : String) : ℤ := countOf s '[' - countOf s ']'

/-- `_parse_gemini_json` (source lines 55–83): blank input is `none`; a
markdown code fence is stripped; then parse, and on failure repair the
truncation and re-parse. -/
def parse_gemini_json (text : String) : Option Json :=
  if text.isEmpty ∨ (pyStrip text).isEmpty then none
  else
    let t := pyStrip text
    let t2 :=
      match pyFind t "```json" with
      | some i0 =>
        let start := i0 + 7
        (match subIdxFrom t.toList ( "```".toList) start with
         | some e => pyStrip (pySlice t start e)
         | none => pyStrip (String.mk (t.toList.drop start)))
      | none =>
        match pyFind t "```" with
        | some i0 =>
          let start := i0 + 3
          (match subIdxFrom t.toList ( "```".toList) start with
           | some e => pyStrip (pySlice t start e)
           | none => pyStrip (String.mk (t.toList.drop start)))
        | none => t
    match jsonLoads t2 with
    | some j => some j
    | none =>
      match repair_truncated_json t2 with
      | some rep => jsonLoads rep
      | none => none

/-- The normalized result dictionary built by `verify_with_gemini`
(source lines 260–269), field order as in the source. -/
structure GeminiResult where
  content_match_score : ℤ
  is_authentic_photo : Bool
  is_screenshot_or_screen_photo : Bool
  is_ai_generated : Bool
  scene_description : String
  grade : String
  reasoning : String
  flags : List Json

/-- `int(data.get("content_match_score", 0)) if ... is not None else 0`
(source line 261); `none` models a raised conversion error (whole call
returns null through the outer `except`). -/
def geminiScoreOf (fields : List (String × Json)) : Option ℤ :=
  match jget fields "content_match_score" with
  | none => some 0
  | some .null => some 0
  | some v => pyInt v

/-- The rest of the normalization block (source lines 260–272), given the
already-converted score: build the result dictionary, replace an invalid
grade by "C", clamp the score into [0, 100]. -/
def normalizeGeminiFields (fields : List (String × Json)) (score : ℤ) :
    GeminiResult :=
  let result : GeminiResult :=
    { content_match_score := score
      is_authentic_photo :=
        match jget fields "is_authentic_photo" with
        | none => true
        | some v => pyTruthy v
      is_screenshot_or_screen_photo :=
        match jget fields "is_screenshot_or_screen_photo" with
        | none => false
        | some v => pyTruthy v
      is_ai_generated :=
        match jget fields "is_ai_generated" with
        | none => false
        | some v => pyTruthy v
      scene_description :=
        match jget fields "scene_description" with
        | none => ""
        | some v => pyStr v
      grade :=
        match jget fields "grade" with
        | none => "C"
        | some v => if pyTruthy v then pyUpper (pyStrip (pyStr v)) else "C"
      reasoning :=
        match jget fields "reasoning" with
        | none => ""
        | some v => pyStr v
      flags :=
        match jget fields "flags" with
        | some (.arr l) => l
        | _ => [] }
  let result :=
    if result.grade ∈ ["A", "B", "C", "D", "F"] then result
    else { result with grade := "C" }
  { result with content_match_score := max 0 (min 100 result.content_match_score) }

/-- The whole `# Normalize types` block of `verify_with_gemini` (source
lines 259–272): `none` when `data` is not a dict (`.get` raises) or the
score conversion raises. -/
def normalizeGeminiResult (data : Json) : Option GeminiResult :=
  match data with
  | .obj fields =>
    match geminiScoreOf fields with
    | none => none
    | some score => some (normalizeGeminiFields fields score)
  | _ => none

/-- Environment of one `verify_with_gemini` call: the configured
`settings.GEMINI_API_KEY` and what the Gemini API produced (`none` when the
request failed after retries, returned no `text`, or any other exception —
all of which return null through the enclosing `try/except`). -/
structure GeminiEnv where
  apiKey : String
  responseText : Option String

/-- `verify_with_gemini` (source lines 108–297) after the network call is
abstracted into the environment: no credentials → null; no usable response
text → null; otherwise parse (with repair) and normalize, any parse failure
or falsy parse result being null. -/
def verify_with_gemini (env : GeminiEnv) : Option GeminiResult :=
  if env.apiKey = "" then none
  else
    match env.responseText with
    | none => none
    | some t =>
      if t.isEmpty then none
      else
        match parse_gemini_json t with
        | none => none
        | some data => if pyTruthy data then normalizeGeminiResult data else none

/-! ### Field projections of the normalized result -/

theorem normGF_score (fields : List (String × Json)) (s : ℤ) :
    (normalizeGeminiFields fields s).content_match_score = max 0 (min 100 s) := by
  simp only [normalizeGeminiFields]
  split <;> rfl

theorem normGF_grade (fields : List (String × Json)) (s : ℤ) :
    (normalizeGeminiFields fields s).grade =
      (if (match jget fields "grade" with
           | none => "C"
           | some v => if pyTruthy v then pyUpper (pyStrip (pyStr v)) else "C")
          ∈ ["A", "B", "C", "D", "F"]
       then (match jget fields "grade" with
             | none => "C"
             | some v => if pyTruthy v then pyUpper (pyStrip (pyStr v)) else "C")
       else "C") := by
  simp only [normalizeGeminiFields]
  split <;> rfl

theorem normGF_auth (fields : List (String × Json)) (s : ℤ) :
    (normalizeGeminiFields fields s).is_authentic_photo =
      (match jget fields "is_authentic_photo" with
       | none => true
       | some v => pyTruthy v) := by
  simp only [normalizeGeminiFields]
  split <;> rfl

theorem normGF_screen (fields : List (String × Json)) (s : ℤ) :
    (normalizeGeminiFields fields s).is_screenshot_or_screen_photo =
      (match jget fields "is_screenshot_or_screen_photo" with
       | none => false
       | some v => pyTruthy v) := by
  simp only [normalizeGeminiFields]
  split <;> rfl

theorem normGF_ai (fields : List (String × Json)) (s : ℤ) :
    (normalizeGeminiFields fields s).is_ai_generated =
      (match jget fields "is_ai_generated" with
       | none => false
       | some v => pyTruthy v) := by
  simp only [normalizeGeminiFields]
  split <;> rfl

theorem normGF_flags (fields : List (String × Json)) (s : ℤ) :
    (normalizeGeminiFields fields s).flags =
      (match jget fields "flags" with
       | some (.arr l) => l
       | _ => []) := by
  simp only [normalizeGeminiFields]
  split <;> rfl

/-- C4: the truncated response is repaired and parsed to grade B / score 70;
a score of 150 is clamped to 100; and every successfully normalized result
has its score in [0, 100], its grade among the five letters (defaulting to
"C" when the grade is absent or does not normalize to a valid letter),
`is_authentic_photo` defaulting to true, the screenshot and AI flags
defaulting to false, and `flags` defaulting to the empty list when not a
JSON array. -/
theorem c4_gemini_parse_normalize :
    ((verify_with_gemini ⟨"k", some "\x7b\"grade\":\"B\",\"content_match_score\":70"⟩).map
        (fun r => (r.grade, r.content_match_score)) = some ("B", 70)) ∧
    ((normalizeGeminiResult (Json.obj [("content_match_score", Json.num 150)])).map
        (fun r => r.content_match_score) = some 100) ∧
    (∀ (fields : List (String × Json)) (r : GeminiResult),
      normalizeGeminiResult (Json.obj fields) = some r →
      (0 ≤ r.content_match_score ∧ r.content_match_score ≤ 100) ∧
      r.grade ∈ ["A", "B", "C", "D", "F"] ∧
      (jget fields "grade" = none → r.grade = "C") ∧
      (∀ v, jget fields "grade" = some v →
        pyUpper (pyStrip (pyStr v)) ∉ ["A", "B", "C", "D", "F"] → r.grade = "C") ∧
      (jget fields "is_authentic_photo" = none → r.is_authentic_photo = true) ∧
      (jget fields "is_screenshot_or_screen_photo" = none →
        r.is_screenshot_or_screen_photo = false) ∧
      (jget fields "is_ai_generated" = none → r.is_ai_generated = false) ∧
      ((∀ l, jget fields "flags" ≠ some (Json.arr l)) → r.flags = [])) := by
  refine ⟨by rfl, by rfl, ?_⟩
  intro fields r h
  simp only [normalizeGeminiResult] at h
  cases hs : geminiScoreOf fields with
  | none => rw [hs] at h; cases h
  | some s =>
    rw [hs] at h
    cases h
    refine ⟨?_, ?_, ?_, ?_, ?_, ?_, ?_, ?_⟩
    · rw [normGF_score]
      omega
    · rw [normGF_grade]
      split
      · assumption
      · decide
    · intro hg
      rw [normGF_grade, hg]
      decide
    · intro v hg hnv
      rw [normGF_grade, hg]
      dsimp only
      by_cases ht : pyTruthy v = true
      · rw [if_pos ht, if_neg hnv]
      · rw [if_neg ht]
        decide
    · intro ha
      rw [normGF_auth, ha]
    · intro ha
      rw [normGF_screen, ha]
    · intro ha
      rw [normGF_ai, ha]
    · intro hfl
      rw [normGF_flags]
      cases hv : jget fields "flags" with
      | none => rfl
      | some v =>
        cases v with
        | arr l => exact absurd hv (hfl l)
        | null => rfl
        | bool b => rfl
        | num n => rfl
        | str s => rfl
        | obj o => rfl

/-- Witness for C4: the empty parsed object exercises every default. -/
theorem c4_gemini_parse_normalize_witness :
    (0 ≤ (normalizeGeminiFields [] 0).content_match_score ∧
     (normalizeGeminiFields [] 0).content_match_score ≤ 100) ∧
    (normalizeGeminiFields [] 0).grade = "C" ∧
    (normalizeGeminiFields [] 0).is_authentic_photo = true ∧
    (normalizeGeminiFields [] 0).is_screenshot_or_screen_photo = false ∧
    (normalizeGeminiFields [] 0).is_ai_generated = false ∧
    (normalizeGeminiFields [] 0).flags = [] := by
  have h := c4_gemini_parse_normalize.2.2 [] (normalizeGeminiFields [] 0) rfl
  exact ⟨h.1, h.2.2.1 rfl, h.2.2.2.2.1 rfl, h.2.2.2.2.2.1 rfl,
    h.2.2.2.2.2.2.1 rfl, h.2.2.2.2.2.2.2 (fun l hl => Option.noConfusion hl)⟩

/-- C10: a grade value whose stripped, uppercased form is one of the five
letters is kept (uppercased), not replaced by the default "C". -/
theorem c10_grade_uppercased (fields : List (String × Json)) (g : String)
    (hg : jget fields "grade" = some (Json.str g))
    (hvalid : pyUpper (pyStrip g) ∈ ["A", "B", "C", "D", "F"])
    (r : GeminiResult) (hr : normalizeGeminiResult (Json.obj fields) = some r) :
    r.grade = pyUpper (pyStrip g) := by
  have hne : g ≠ "" := by
    rintro rfl
    exact absurd hvalid (by decide)
  simp only [normalizeGeminiResult] at hr
  cases hs : geminiScoreOf fields with
  | none => rw [hs] at hr; cases hr
  | some s =>
    rw [hs] at hr
    cases hr
    rw [normGF_grade, hg]
    dsimp only
    have ht : pyTruthy (Json.str g) = true := decide_eq_true hne
    rw [if_pos ht]
    have hst : pyStr (Json.str g) = g := rfl
    rw [hst, if_pos hvalid]

/-- Witness for C10: the padded lowercase grade " b " normalizes to "B". -/
theorem c10_grade_uppercased_witness :
    (normalizeGeminiResult (Json.obj [("grade", Json.str " b ")])).map
      (fun r => r.grade) = some (pyUpper (pyStrip " b ")) := by
  have h := c10_grade_uppercased [("grade", Json.str " b ")] " b " rfl (by decide)
    (normalizeGeminiFields [("grade", Json.str " b ")] 0) rfl
  calc (normalizeGeminiResult (Json.obj [("grade", Json.str " b ")])).map
        (fun r => r.grade)
      = some ((normalizeGeminiFields [("grade", Json.str " b ")] 0).grade) := rfl
    _ = some (pyUpper (pyStrip " b ")) := congrArg some h

/-! ## `app/api/routes/submissions.py` — the verification phase of
`create_submission` (source lines 199–379)

Request parsing, database lookups and persistence are collaborators; the
environment carries their results (the quest location query may fail, hence
`Option`).  The verification phase itself — the analyzer calls, the
`verification_errors` list, the final status and `rejection_reason` — is
translated directly. -/

/-- Structured rendering of the blocking-finding messages built in
`create_submission`; constructors carrying values stand for the f-strings
interpolating them. -/
inductive VMessage where
  | qualityBlur
  | qualityDark
  | qualitySmall
  | gps (reason : GpsReason)
  | exifMismatch (reason : ExifReason)
  | aiScreenOrFake
  | aiInauthentic
  | aiContentMismatch (hint : Option String)

/-- One entry of `verification_errors`. -/
structure Finding where
  code : String
  message : VMessage

/-- The `Hint:` suffix of the content-mismatch message (source lines
318–321): the stripped reasoning truncated to 200 characters, with an
ellipsis when longer; `none` when the stripped reasoning is empty. -/
def aiMismatchHint (reasoning : String) : Option String :=
  let r := pyStrip reasoning
  if r = "" then none
  else some (String.mk (r.toList.take 200) ++ (if 200 < r.length then "..." else ""))

/-- `SubmissionStatus` (`app/models/submission.py`). -/
inductive SubmissionStatus where
  | pending
  | processing
  | ai_review
  | pending_review
  | verified
  | rejected
  deriving DecidableEq

/-- Environment of one `create_submission` verification run: the raw bytes,
the library outcomes for face redaction / quality / EXIF, the parsed
location form fields, the quest row, and the Gemini environment. -/
structure SubmissionEnv where
  image_bytes : List Nat
  faceEnv : Option DecodedFaceImage
  qualityImg : Option DecodedGrayImage
  exifTags : Option (List (String × ExifTag))
  lat : ℝ
  lng : ℝ
  accuracy : Option ℝ
  quest_location : Option (ℝ × ℝ)
  quest_radius : ℤ
  capture_method : String
  gemini : GeminiEnv
  minScore : ℤ

/-- The quality findings, appended in the source's order (source lines
212–228): blur, dark, small. -/
def qualityFindings (q : QualityResult) : List Finding :=
  (if q.is_blurry then [⟨"QUALITY_BLUR", .qualityBlur⟩] else []) ++
  (if q.is_too_dark then [⟨"QUALITY_DARK", .qualityDark⟩] else []) ++
  (if q.is_too_small then [⟨"QUALITY_SMALL", .qualitySmall⟩] else [])

/-- The `"away" in gps_result["reason"]` test (source line 255): of the three
reason strings only the out-of-range one ("You are …m away from …")
contains "away". -/
def gpsReasonContainsAway : GpsReason → Bool
  | .tooFar _ _ => true
  | _ => false

/-- The GPS verification call (source lines 232–245): skipped when the quest
location query returns nothing; the accuracy passed is
`location_obj.accuracy or 0`. -/
noncomputable def gpsOutcome (env : SubmissionEnv) : Option GpsResult :=
  match env.quest_location with
  | none => none
  | some ql =>
    some (verify_gps_location env.lat env.lng (some (env.accuracy.getD 0))
      ql.1 ql.2 env.quest_radius)

/-- The GPS finding (source lines 253–257). -/
noncomputable def gpsFindings (env : SubmissionEnv) : List Finding :=
  match gpsOutcome env with
  | none => []
  | some g =>
    if g.verified then []
    else [⟨if gpsReasonContainsAway g.reason then "GPS_OUT_OF_RANGE"
           else "GPS_INACCURATE", .gps g.reason⟩]

/-- The EXIF cross-validation call (source lines 260–266): run only when the
extracted metadata has GPS. -/
noncomputable def exifOutcome (env : SubmissionEnv) : Option ExifValidation :=
  let exif_data := extract_exif_metadata env.exifTags
  if exif_data.has_gps then
    some (validate_exif_location exif_data env.lat env.lng 50)
  else none

/-- The EXIF finding (source lines 273–277). -/
noncomputable def exifFindings (env : SubmissionEnv) : List Finding :=
  match exifOutcome env with
  | none => []
  | some v =>
    if v.matches' then [] else [⟨"EXIF_MISMATCH", .exifMismatch v.reason⟩]

/-- The AI findings (source lines 294–328): at most one, from the
`if`/`elif`/`else` chain; a null Gemini result contributes nothing. -/
def aiFindings (g? : Option GeminiResult) (minScore : ℤ) : List Finding :=
  match g? with
  | none => []
  | some g =>
    if g.is_screenshot_or_screen_photo || g.is_ai_generated then
      [⟨"AI_REJECT_SCREEN_OR_FAKE", .aiScreenOrFake⟩]
    else if !g.is_authentic_photo then
      [⟨"AI_REJECT_INAUTHENTIC", .aiInauthentic⟩]
    else if g.content_match_score < minScore then
      [⟨"AI_REJECT_CONTENT_MISMATCH", .aiContentMismatch (aiMismatchHint g.reasoning)⟩]
    else []

/-- The `verification_result["exif"]` entry: in the no-GPS branch the source
writes `validated: None` and no distance key (rendered `none`). -/
structure ExifEntry where
  validated : Option Bool
  distance_meters : Option ℝ
  reason : ExifReason

/-- The `verification_result["quality"]` entry (source lines 332–337). -/
structure QualityEntry where
  score : ℤ
  is_blurry : Bool
  is_too_dark : Bool
  is_too_small : Bool

/-- The persisted `verification_result` dictionary: the `gps` key is present
only when the quest-location query succeeded. -/
structure VerificationResult where
  gps : Option GpsResult
  exif : ExifEntry
  gemini : Option GeminiResult
  quality : QualityEntry
  faces : Nat × Nat

/-- What the verification phase leaves on the submission row. -/
structure SubmissionOutcome where
  status : SubmissionStatus
  rejection_reason : Option VMessage
  verification_result : VerificationResult
  verification_errors : List Finding
  saved_image : Option (List Nat)

/-- The verification phase of `create_submission` (source lines 199–379):
run the analyzers in the fixed order, collect `verification_errors`, record
every analyzer's output in `verification_result`, then reject with the
first error's message or verify and save the processed image. -/
noncomputable def processSubmission (env : SubmissionEnv) : SubmissionOutcome :=
  let fr := detect_and_blur_faces env.image_bytes env.faceEnv
  let processed_image := fr.1
  let faces_detected := fr.2.1
  let faces_blurred := fr.2.2
  let quality_result := check_image_quality env.qualityImg
  let gem := verify_with_gemini env.gemini
  let verification_errors :=
    qualityFindings quality_result ++ gpsFindings env ++ exifFindings env ++
      aiFindings gem env.minScore
  let vr : VerificationResult :=
    { gps := gpsOutcome env
      exif :=
        match exifOutcome env with
        | some v => ⟨some v.matches', v.distance_meters, v.reason⟩
        | none => ⟨none, none, .noGpsWarning⟩
      gemini := gem
      quality := ⟨quality_result.score, quality_result.is_blurry,
        quality_result.is_too_dark, quality_result.is_too_small⟩
      faces := (faces_detected, faces_blurred) }
  match verification_errors with
  | e :: _ =>
    { status := .rejected, rejection_reason := some e.message,
      verification_result := vr,
      verification_errors := verification_errors, saved_image := none }
  | [] =>
    { status := .verified, rejection_reason := none,
      verification_result := vr,
      verification_errors := [], saved_image := some processed_image }

/-! ### The specified blocking-finding precedence

Following the (amended) specification's wording: the first blocking finding
is chosen by quality (too blurry, then too dark, then too small), then GPS
(the accuracy rejection preceding the out-of-range one inside
`verify_gps_location`), then the EXIF mismatch, then the AI chain
(screenshot-or-AI, not-authentic, content score below the minimum). -/

/-- The first blocking quality finding per the specified precedence. -/
def specQualityBlocking (q : QualityResult) : Option Finding :=
  if q.is_blurry then some ⟨"QUALITY_BLUR", .qualityBlur⟩
  else if q.is_too_dark then some ⟨"QUALITY_DARK", .qualityDark⟩
  else if q.is_too_small then some ⟨"QUALITY_SMALL", .qualitySmall⟩
  else none

/-- The blocking GPS finding per the specification. -/
noncomputable def specGpsBlocking (env : SubmissionEnv) : Option Finding :=
  match gpsOutcome env with
  | none => none
  | some g =>
    if g.verified then none
    else some ⟨if gpsReasonContainsAway g.reason then "GPS_OUT_OF_RANGE"
               else "GPS_INACCURATE", .gps g.reason⟩

/-- The blocking EXIF finding per the specification. -/
noncomputable def specExifBlocking (env : SubmissionEnv) : Option Finding :=
  match exifOutcome env with
  | none => none
  | some v =>
    if v.matches' then none else some ⟨"EXIF_MISMATCH", .exifMismatch v.reason⟩

/-- The blocking AI finding per the specification. -/
def specAiBlocking (g? : Option GeminiResult) (minScore : ℤ) : Option Finding :=
  match g? with
  | none => none
  | some g =>
    if g.is_screenshot_or_screen_photo || g.is_ai_generated then
      some ⟨"AI_REJECT_SCREEN_OR_FAKE", .aiScreenOrFake⟩
    else if !g.is_authentic_photo then
      some ⟨"AI_REJECT_INAUTHENTIC", .aiInauthentic⟩
    else if g.content_match_score < minScore then
      some ⟨"AI_REJECT_CONTENT_MISMATCH", .aiContentMismatch (aiMismatchHint g.reasoning)⟩
    else none

/-- The specified first blocking finding, in precedence order. -/
noncomputable def firstBlockingFinding (env : SubmissionEnv) : Option Finding :=
  (specQualityBlocking (check_image_quality env.qualityImg)).orElse fun _ =>
    (specGpsBlocking env).orElse fun _ =>
      (specExifBlocking env).orElse fun _ =>
        specAiBlocking (verify_with_gemini env.gemini) env.minScore

/-! ### Correspondence between the built error list and the specification -/

theorem head?_append4 {α : Type} (a b c d : List α) :
    (a ++ b ++ c ++ d).head? =
      (a.head?.orElse fun _ => b.head?.orElse fun _ => c.head?.orElse fun _ => d.head?) := by
  cases a <;> cases b <;> cases c <;> cases d <;> rfl

theorem qualityFindings_head? (q : QualityResult) :
    (qualityFindings q).head? = specQualityBlocking q := by
  simp only [qualityFindings, specQualityBlocking]
  cases hb : q.is_blurry <;> cases hd : q.is_too_dark <;>
    cases hs : q.is_too_small <;> simp [hb, hd, hs]

theorem gpsFindings_head? (env : SubmissionEnv) :
    (gpsFindings env).head? = specGpsBlocking env := by
  simp only [gpsFindings, specGpsBlocking]
  cases gpsOutcome env with
  | none => rfl
  | some g => cases hv : g.verified <;> simp [hv]

theorem exifFindings_head? (env : SubmissionEnv) :
    (exifFindings env).head? = specExifBlocking env := by
  simp only [exifFindings, specExifBlocking]
  cases exifOutcome env with
  | none => rfl
  | some v => cases hv : v.matches' <;> simp [hv]

theorem aiFindings_head? (g? : Option GeminiResult) (m : ℤ) :
    (aiFindings g? m).head? = specAiBlocking g? m := by
  simp only [aiFindings, specAiBlocking]
  cases g? with
  | none => rfl
  | some g =>
    dsimp only
    split_ifs <;> rfl

theorem processSubmission_errors (env : SubmissionEnv) :
    (processSubmission env).verification_errors =
      qualityFindings (check_image_quality env.qualityImg) ++ gpsFindings env ++
        exifFindings env ++ aiFindings (verify_with_gemini env.gemini) env.minScore := by
  simp only [processSubmission]
  split <;> simp_all

theorem processSubmission_decision (env : SubmissionEnv) :
    (processSubmission env).rejection_reason =
      ((processSubmission env).verification_errors.head?).map (fun f => f.message) ∧
    ((processSubmission env).verification_errors = [] →
      (processSubmission env).status = SubmissionStatus.verified) ∧
    (∀ e t, (processSubmission env).verification_errors = e :: t →
      (processSubmission env).status = SubmissionStatus.rejected) := by
  simp only [processSubmission]
  split <;> simp_all

theorem processSubmission_result (env : SubmissionEnv) :
    (processSubmission env).verification_result.gps = gpsOutcome env ∧
    (processSubmission env).verification_result.gemini = verify_with_gemini env.gemini ∧
    (processSubmission env).verification_result.quality =
      ⟨(check_image_quality env.qualityImg).score,
       (check_image_quality env.qualityImg).is_blurry,
       (check_image_quality env.qualityImg).is_too_dark,
       (check_image_quality env.qualityImg).is_too_small⟩ ∧
    (processSubmission env).verification_result.faces =
      ((detect_and_blur_faces env.image_bytes env.faceEnv).2.1,
       (detect_and_blur_faces env.image_bytes env.faceEnv).2.2) ∧
    (processSubmission env).verification_result.exif =
      (match exifOutcome env with
       | some v => ⟨some v.matches', v.distance_meters, v.reason⟩
       | none => ⟨none, none, ExifReason.noGpsWarning⟩) := by
  simp only [processSubmission]
  split <;> exact ⟨rfl, rfl, rfl, rfl, rfl⟩

theorem processSubmission_head? (env : SubmissionEnv) :
    (processSubmission env).verification_errors.head? = firstBlockingFinding env := by
  rw [processSubmission_errors, head?_append4, qualityFindings_head?,
    gpsFindings_head?, exifFindings_head?, aiFindings_head?]
  rfl

/-- C1 counterexample: a submission whose quality analysis flags both
too-small and too-blurry (a 320×240 image with edge variance 100 and
brightness 200, everything else non-blocking) is rejected with the
too-blurry message — the code appends the blur finding before the too-small
one — not the too-small message required by the claim's stated order. -/
theorem c1_precedence_counterexample :
    (processSubmission ⟨[], none, some ⟨320, 240, some 100, some 200⟩, none,
        0, 0, none, none, 50, "live", ⟨"", none⟩, 15⟩).rejection_reason
      = some VMessage.qualityBlur ∧
    (processSubmission ⟨[], none, some ⟨320, 240, some 100, some 200⟩, none,
        0, 0, none, none, 50, "live", ⟨"", none⟩, 15⟩).verification_result.quality.is_too_small
      = true ∧
    VMessage.qualityBlur ≠ VMessage.qualitySmall := by
  refine ⟨rfl, rfl, fun h => VMessage.noConfusion h⟩

/-- C1 (amended): the final decision follows the fixed blocking-finding
precedence with the quality group ordered too blurry → too dark → too
small: `rejection_reason` is the message of the specified first blocking
finding; no blocking finding yields status `verified` with a null reason; a
blocking finding yields status `rejected`; and the recorded
`verification_result` contains every analyzer's output in both cases. -/
theorem c1_decision_precedence (env : SubmissionEnv) :
    ((processSubmission env).rejection_reason
      = (firstBlockingFinding env).map (fun f => f.message)) ∧
    (firstBlockingFinding env = none →
      (processSubmission env).status = SubmissionStatus.verified ∧
      (processSubmission env).rejection_reason = none) ∧
    (∀ f, firstBlockingFinding env = some f →
      (processSubmission env).status = SubmissionStatus.rejected ∧
      (processSubmission env).rejection_reason = some f.message) ∧
    (processSubmission env).verification_result.gps = gpsOutcome env ∧
    (processSubmission env).verification_result.gemini = verify_with_gemini env.gemini ∧
    (processSubmission env).verification_result.quality =
      ⟨(check_image_quality env.qualityImg).score,
       (check_image_quality env.qualityImg).is_blurry,
       (check_image_quality env.qualityImg).is_too_dark,
       (check_image_quality env.qualityImg).is_too_small⟩ ∧
    (processSubmission env).verification_result.faces =
      ((detect_and_blur_faces env.image_bytes env.faceEnv).2.1,
       (detect_and_blur_faces env.image_bytes env.faceEnv).2.2) ∧
    (processSubmission env).verification_result.exif =
      (match exifOutcome env with
       | some v => ⟨some v.matches', v.distance_meters, v.reason⟩
       | none => ⟨none, none, ExifReason.noGpsWarning⟩) := by
  obtain ⟨hrr, hnil, hcons⟩ := processSubmission_decision env
  have hh := processSubmission_head? env
  refine ⟨?_, ?_, ?_, (processSubmission_result env).1,
    (processSubmission_result env).2.1, (processSubmission_result env).2.2.1,
    (processSubmission_result env).2.2.2.1, (processSubmission_result env).2.2.2.2⟩
  · rw [hrr, hh]
  · intro h0
    have hemp : (processSubmission env).verification_errors = [] := by
      rw [h0] at hh
      exact List.head?_eq_none_iff.mp hh
    refine ⟨hnil hemp, ?_⟩
    rw [hrr, hemp]
    rfl
  · intro f hf
    cases herr : (processSubmission env).verification_errors with
    | nil =>
      rw [herr, hf] at hh
      cases hh
    | cons e t =>
      rw [herr, hf] at hh
      have he : e = f := Option.some.inj hh
      refine ⟨hcons e t herr, ?_⟩
      rw [hrr, herr, he]
      rfl

/-- Witness for C1 at a concrete input: a run with no blocking finding is
verified with a null reason. -/
theorem c1_decision_precedence_witness :
    (processSubmission ⟨[], none, some ⟨1024, 768, some 600, some 120⟩, none,
        0, 0, none, none, 50, "upload", ⟨"", none⟩, 15⟩).status
      = SubmissionStatus.verified ∧
    (processSubmission ⟨[], none, some ⟨1024, 768, some 600, some 120⟩, none,
        0, 0, none, none, 50, "upload", ⟨"", none⟩, 15⟩).rejection_reason = none :=
  (c1_decision_precedence _).2.1 rfl

/-- C5: with no configured API key `verify_with_gemini` returns null
immediately; a null AI result contributes no blocking finding; and a
submission whose other analyzers produce no blocking findings reaches
status `verified` even with the AI result absent (and recorded as null). -/
theorem c5_null_ai_never_blocks (genv : GeminiEnv) (env : SubmissionEnv) :
    (genv.apiKey = "" → verify_with_gemini genv = none) ∧
    (verify_with_gemini env.gemini = none →
      aiFindings (verify_with_gemini env.gemini) env.minScore = []) ∧
    (verify_with_gemini env.gemini = none →
      qualityFindings (check_image_quality env.qualityImg) = [] →
      gpsFindings env = [] →
      exifFindings env = [] →
      (processSubmission env).status = SubmissionStatus.verified ∧
      (processSubmission env).rejection_reason = none ∧
      (processSubmission env).verification_result.gemini = none) := by
  refine ⟨?_, ?_, ?_⟩
  · intro h
    simp only [verify_with_gemini]
    rw [if_pos h]
  · intro h
    rw [h]
    rfl
  · intro hg hq hgps hexif
    have herr : (processSubmission env).verification_errors = [] := by
      rw [processSubmission_errors, hq, hgps, hexif, hg]
      rfl
    obtain ⟨hrr, hnil, _⟩ := processSubmission_decision env
    refine ⟨hnil herr, ?_, ?_⟩
    · rw [hrr, herr]
      rfl
    · rw [(processSubmission_result env).2.1, hg]

/-- Witness for C5: empty API key, all other analyzers clean, run verified. -/
theorem c5_null_ai_never_blocks_witness :
    verify_with_gemini ⟨"", none⟩ = none ∧
    (processSubmission ⟨[], none, some ⟨1024, 768, some 600, some 120⟩, none,
        0, 0, none, none, 50, "live", ⟨"", none⟩, 15⟩).status
      = SubmissionStatus.verified ∧
    (processSubmission ⟨[], none, some ⟨1024, 768, some 600, some 120⟩, none,
        0, 0, none, none, 50, "live", ⟨"", none⟩, 15⟩).rejection_reason = none ∧
    (processSubmission ⟨[], none, some ⟨1024, 768, some 600, some 120⟩, none,
        0, 0, none, none, 50, "live", ⟨"", none⟩, 15⟩).verification_result.gemini
      = none := by
  have h := c5_null_ai_never_blocks ⟨"", none⟩
    ⟨[], none, some ⟨1024, 768, some 600, some 120⟩, none,
      0, 0, none, none, 50, "live", ⟨"", none⟩, 15⟩
  exact ⟨h.1 rfl, (h.2.2 rfl rfl rfl rfl).1, (h.2.2 rfl rfl rfl rfl).2.1,
    (h.2.2 rfl rfl rfl rfl).2.2⟩

end GeoQuests
